import Mathlib

/-!
Shallow embedding of `src/script.js` — a browser-resident flood-incident
reporting app ("project-groot").

Modelling conventions:
* JS numbers carrying coordinates, accuracies and counts are embedded as `ℚ`
  (exact rationals); only the Haversine distance, which uses transcendental
  functions, is real-valued (`ℝ`).
* The module-level mutable globals (`appState`, `selectedSeverityLevel`,
  `currentVerificationMode`, `sensorVerified`) become the fields of one
  explicit state record `ScriptState`; each JS function that mutates them
  becomes a state transformer.
* Status, severity, urgency and verification mode are the same free strings
  the source uses ("PENDING", "high", "Critical", "photo", ...).
* Nullable globals (`currentUserLat = null` initially) are `Option ℚ`;
  the JS idiom `x || d` (which falls back on `null` AND on `0`,
  both being falsy) is embedded exactly as `jsOrElse`.
* DOM reads feeding `submitReport` (people-count input value, file-input
  length) are explicit parameters; DOM writes are dropped (view plumbing).
-/

/-- A report object as constructed in `submitReport` (src/script.js:312-325). -/
structure Report where
  id : Nat
  timestamp : String
  lat : ℚ
  lng : ℚ
  accuracy : ℚ
  severity : String
  urgency : String
  people : String
  status : String
  verificationType : String
  hasPhoto : Bool
  sensorVerified : Bool
deriving DecidableEq, Repr

/-- The module-level mutable state of src/script.js: the fields of `appState`
that the core logic reads or writes, together with the free-floating globals
`selectedSeverityLevel`, `currentVerificationMode`, `sensorVerified`. -/
structure ScriptState where
  reports : List Report
  currentUserLat : Option ℚ
  currentUserLng : Option ℚ
  currentUserAccuracy : Option ℚ
  selectedSeverityLevel : String
  currentVerificationMode : String
  sensorVerified : Bool
deriving DecidableEq, Repr

/-- The initial values of the globals (src/script.js:4-10, 66-68). -/
def initialState : ScriptState :=
  { reports := []
    currentUserLat := none
    currentUserLng := none
    currentUserAccuracy := none
    selectedSeverityLevel := ""
    currentVerificationMode := "photo"
    sensorVerified := false }

/-- JS `x || d` for a nullable number `x`: both `null` and `0` are falsy,
so the default `d` is taken exactly when `x` is absent or zero. -/
def jsOrElse (x : Option ℚ) (d : ℚ) : ℚ :=
  match x with
  | none => d
  | some v => if v = 0 then d else v

/-- `confirmManualLocation` (src/script.js:105-119): overwrite the stored
location with the picked marker coordinate and set the accuracy to the
manual-selection sentinel `0`.  DOM updates are dropped. -/
def confirmManualLocation (st : ScriptState) (lat lng : ℚ) : ScriptState :=
  { st with
    currentUserLat := some lat
    currentUserLng := some lng
    currentUserAccuracy := some 0 }

/-- The geolocation success callback installed by `startReport`
(src/script.js:171-191): unconditionally store the fix's latitude,
longitude and accuracy.  DOM updates are dropped. -/
def geolocationSuccess (st : ScriptState) (latitude longitude accuracy : ℚ) :
    ScriptState :=
  { st with
    currentUserLat := some latitude
    currentUserLng := some longitude
    currentUserAccuracy := some accuracy }

/-- `selectSeverity` (src/script.js:208-217): record the chosen level. -/
def selectSeverity (st : ScriptState) (level : String) : ScriptState :=
  { st with selectedSeverityLevel := level }

/-- `setVerificationMode` (src/script.js:224-257): record the active tab. -/
def setVerificationMode (st : ScriptState) (mode : String) : ScriptState :=
  { st with currentVerificationMode := mode }

/-- Completion of the simulated sensor check (src/script.js:278-288):
after the 1.5 s timeout, `sensorVerified` is set to `true`. -/
def sensorCheckComplete (st : ScriptState) : ScriptState :=
  { st with sensorVerified := true }

/-- The urgency derivation in `submitReport` (src/script.js:308-310):
`let urgency = "Low"; if high → "Critical"; else if med → "Moderate"`. -/
def urgencyOf (severity : String) : String :=
  if severity = "high" then "Critical"
  else if severity = "med" then "Moderate"
  else "Low"

/-- The report literal built in `submitReport` (src/script.js:312-325).
`now` is `Date.now()`, `ts` the formatted timestamp, `people` the value of
the people-count input, `hasPhoto` whether the file input holds a file. -/
def mkReport (st : ScriptState) (now : Nat) (ts : String) (people : String)
    (hasPhoto : Bool) : Report :=
  { id := now
    timestamp := ts
    lat := jsOrElse st.currentUserLat 14.5995
    lng := jsOrElse st.currentUserLng 120.9842
    accuracy := jsOrElse st.currentUserAccuracy 15
    severity := st.selectedSeverityLevel
    urgency := urgencyOf st.selectedSeverityLevel
    people := people
    status := "PENDING"
    verificationType := st.currentVerificationMode
    hasPhoto := hasPhoto
    sensorVerified := st.sensorVerified }

/-- Outcome of a `submitReport` call: either the blocking
"Please select a water level severity." alert, or the pushed report. -/
inductive SubmitResult where
  | missingSeverity
  | submitted (r : Report)
deriving DecidableEq, Repr

/-- `submitReport` (src/script.js:302-333): guard on an empty severity
selection (the empty string is the only falsy value the global can hold),
otherwise push the new report.  No global other than `appState.reports`
is written. -/
def submitReport (st : ScriptState) (now : Nat) (ts : String) (people : String)
    (hasPhoto : Bool) : ScriptState × SubmitResult :=
  if st.selectedSeverityLevel = "" then
    (st, SubmitResult.missingSeverity)
  else
    let r := mkReport st now ts people hasPhoto
    ({ st with reports := st.reports ++ [r] }, SubmitResult.submitted r)

/-- `updateStatus` (src/script.js:472-479): `find` the first report with the
given id; if present, assign `newStatus` unconditionally and fire the
"Team dispatched" alert (the returned `Bool`); if absent, do nothing
silently.  There is no transition check and no error channel. -/
def updateStatus (reports : List Report) (id : Nat) (newStatus : String) :
    List Report × Bool :=
  match reports with
  | [] => ([], false)
  | r :: rs =>
    if r.id = id then ({ r with status := newStatus } :: rs, true)
    else
      let rest := updateStatus rs id newStatus
      (r :: rest.1, rest.2)

/-- The priority table in `renderAdminFeed` (src/script.js:354):
`{ Critical: 3, Moderate: 2, Low: 1 }`.  The table has no other key;
reports in the store always carry one of the three values (`urgencyOf`
is total onto them), so the catch-all branch is unreachable on store
contents and theorems about the feed restrict to the three keys. -/
def priorityRank (urgency : String) : Int :=
  if urgency = "Critical" then 3
  else if urgency = "Moderate" then 2
  else if urgency = "Low" then 1
  else 0

/-- Stable insertion of a report into a feed already sorted by descending
priority: walk past exactly the reports of strictly higher rank, so the
inserted report lands before later-inserted reports of equal rank. -/
def insertByUrgency (r : Report) : List Report → List Report
  | [] => [r]
  | x :: xs =>
    if priorityRank x.urgency ≤ priorityRank r.urgency then r :: x :: xs
    else x :: insertByUrgency r xs

/-- The sort in `renderAdminFeed` (src/script.js:353-356):
`[...appState.reports].sort((a, b) => priority[b.urgency] - priority[a.urgency])`.
ECMAScript's `Array.prototype.sort` is a stable sort; with a comparator
induced by a numeric key, the stable-sorted result is uniquely determined
(descending by rank, equal ranks in input order), which this insertion
sort realises.  That this model is the unique stable descending sort is
itself proved below (sortedness plus per-urgency filter preservation). -/
def sortAdminFeed (reports : List Report) : List Report :=
  reports.foldr insertByUrgency []

/-- One execution of the polling callback body's test in
`startUserStatusListener` (src/script.js:487-489): look the report up in the
current store and test `report && report.status === "DISPATCHED"`. -/
def pollFires (reports : List Report) (reportId : Nat) : Bool :=
  match reports.find? (fun r => r.id == reportId) with
  | some r => r.status == "DISPATCHED"
  | none => false

/-- The polling loop of `startUserStatusListener` (src/script.js:485-524)
run over a trace of store snapshots, one per 1-second tick.  `active` is
whether the interval is still installed.  Each tick the callback runs iff
the interval is active; when the lookup test passes it updates the DOM
(the `true` entry in the output) and calls `clearInterval`.  Returns the
per-tick fire flags and whether the interval is still installed at the
end of the trace. -/
def runListener (reportId : Nat) : Bool → List (List Report) → List Bool × Bool
  | active, [] => ([], active)
  | active, snap :: rest =>
    let fired := active && pollFires snap reportId
    let next := runListener reportId (active && !fired) rest
    (fired :: next.1, next.2)

/-- An evacuation site record (src/script.js:12-16). -/
structure EvacuationSite where
  name : String
  lat : ℚ
  lng : ℚ
deriving DecidableEq, Repr

/-- The reference site configuration (src/script.js:12-16). -/
def evacuationSites : List EvacuationSite :=
  [ { name := "Evacuation Site 1", lat := 14.6, lng := 121.0 }
  , { name := "Evacuation Site 2", lat := 14.65, lng := 121.05 }
  , { name := "Evacuation Site 3", lat := 14.55, lng := 120.95 } ]

/-- `deg2rad` (src/script.js:41-43). -/
noncomputable def deg2rad (deg : ℚ) : ℝ :=
  (deg : ℝ) * (Real.pi / 180)

/-- JavaScript `Math.atan2 y x` on the reals, defined piecewise from
`Real.arctan` in the standard way. -/
noncomputable def atan2 (y x : ℝ) : ℝ :=
  if 0 < x then Real.arctan (y / x)
  else if x < 0 ∧ 0 ≤ y then Real.arctan (y / x) + Real.pi
  else if x < 0 ∧ y < 0 then Real.arctan (y / x) - Real.pi
  else if x = 0 ∧ 0 < y then Real.pi / 2
  else if x = 0 ∧ y < 0 then -(Real.pi / 2)
  else 0

/-- `getDistance` (src/script.js:26-39): Haversine great-circle distance in
kilometres on a sphere of radius 6371 km. -/
noncomputable def getDistance (lat1 lon1 lat2 lon2 : ℚ) : ℝ :=
  let R : ℝ := 6371
  let dLat := deg2rad (lat2 - lat1)
  let dLon := deg2rad (lon2 - lon1)
  let a := Real.sin (dLat / 2) * Real.sin (dLat / 2) +
    Real.cos (deg2rad lat1) * Real.cos (deg2rad lat2) *
      Real.sin (dLon / 2) * Real.sin (dLon / 2)
  let c := 2 * atan2 (Real.sqrt a) (Real.sqrt (1 - a))
  R * c

/-- The body of the `forEach` in `findNearestSite` (src/script.js:55-61).
The accumulator couples the `nearestSite` and `minDistance` variables:
`none` is the initial `(null, Infinity)` pair, and every real distance
satisfies `distance < Infinity`, so the first site always replaces it. -/
noncomputable def nearestStep (lat lng : ℚ)
    (acc : Option (EvacuationSite × ℝ)) (site : EvacuationSite) :
    Option (EvacuationSite × ℝ) :=
  let distance := getDistance lat lng site.lat site.lng
  match acc with
  | none => some (site, distance)
  | some (best, minDistance) =>
    if distance < minDistance then some (site, distance)
    else some (best, minDistance)

/-- `findNearestSite` (src/script.js:51-64).  The source closes over the
module-level `evacuationSites`; the site list is the explicit parameter here
(the spec treats it as loaded configuration), with `evacuationSites` the
reference value.  Returns `none` exactly when the JS function returns its
initial `null`. -/
noncomputable def findNearestSite (sites : List EvacuationSite) (lat lng : ℚ) :
    Option EvacuationSite :=
  (sites.foldl (nearestStep lat lng) none).map Prod.fst

/-- A sample pending report used for concrete scenarios. -/
def sampleReport : Report :=
  { id := 1
    timestamp := "10:00:00 AM"
    lat := 14.6
    lng := 121.0
    accuracy := 10
    severity := "high"
    urgency := "Critical"
    people := "2"
    status := "PENDING"
    verificationType := "photo"
    hasPhoto := true
    sensorVerified := false }

/-- `sampleReport` after the admin dispatches it. -/
def sampleDispatched : Report :=
  { sampleReport with status := "DISPATCHED" }

/-- Concrete report R1 (low severity) of the stable-sort scenario. -/
def reportLow : Report :=
  { sampleReport with id := 11, severity := "low", urgency := "Low" }

/-- Concrete report R2 (high severity) of the stable-sort scenario. -/
def reportHighA : Report :=
  { sampleReport with id := 12 }

/-- Concrete report R3 (high severity, inserted after R2) of the
stable-sort scenario. -/
def reportHighB : Report :=
  { sampleReport with id := 13 }

/-- Concrete report R4 (medium severity) of the stable-sort scenario. -/
def reportMed : Report :=
  { sampleReport with id := 14, severity := "med", urgency := "Moderate" }

/-!  ### Theorems  -/

/-- Membership in a stable insertion is membership in the parts. -/
theorem mem_insertByUrgency {r x : Report} {l : List Report} :
    x ∈ insertByUrgency r l ↔ x = r ∨ x ∈ l := by
  induction l with
  | nil => simp [insertByUrgency]
  | cons y ys ih =>
    by_cases hc : priorityRank y.urgency ≤ priorityRank r.urgency
    · simp only [insertByUrgency, if_pos hc, List.mem_cons]
    · simp only [insertByUrgency, if_neg hc, List.mem_cons, ih]
      tauto

/-- Stable insertion preserves descending-by-rank sortedness. -/
theorem sorted_insertByUrgency {l : List Report} (r : Report)
    (h : l.Sorted (fun a b => priorityRank b.urgency ≤ priorityRank a.urgency)) :
    (insertByUrgency r l).Sorted
      (fun a b => priorityRank b.urgency ≤ priorityRank a.urgency) := by
  induction l with
  | nil => simp [insertByUrgency]
  | cons y ys ih =>
    rw [List.sorted_cons] at h
    obtain ⟨hy, hys⟩ := h
    by_cases hc : priorityRank y.urgency ≤ priorityRank r.urgency
    · simp only [insertByUrgency, if_pos hc]
      rw [List.sorted_cons]
      refine ⟨?_, ?_⟩
      · intro b hb
        rcases List.mem_cons.mp hb with hb | hb
        · rw [hb]; exact hc
        · exact le_trans (hy b hb) hc
      · rw [List.sorted_cons]
        exact ⟨hy, hys⟩
    · simp only [insertByUrgency, if_neg hc]
      rw [List.sorted_cons]
      refine ⟨?_, ih hys⟩
      intro b hb
      rcases mem_insertByUrgency.mp hb with hb | hb
      · rw [hb]
        exact le_of_lt (lt_of_not_le hc)
      · exact hy b hb

/-- Inserting a report whose urgency matches the filter key puts it at the
head of the filtered view: every report it walks past has strictly higher
rank, hence a different urgency. -/
theorem filter_insertByUrgency_eq {r : Report} {u : String} (hu : r.urgency = u)
    (l : List Report) :
    (insertByUrgency r l).filter (fun x => x.urgency == u) =
      r :: l.filter (fun x => x.urgency == u) := by
  induction l with
  | nil => simp [insertByUrgency, hu]
  | cons y ys ih =>
    by_cases hc : priorityRank y.urgency ≤ priorityRank r.urgency
    · simp only [insertByUrgency, if_pos hc]
      simp [List.filter_cons, hu]
    · have hy : y.urgency ≠ u := by
        intro hyu
        exact hc (by rw [hyu, ← hu])
      simp only [insertByUrgency, if_neg hc]
      simp [List.filter_cons, hy, ih]

/-- Inserting a report whose urgency differs from the filter key leaves the
filtered view unchanged. -/
theorem filter_insertByUrgency_ne {r : Report} {u : String} (hu : r.urgency ≠ u)
    (l : List Report) :
    (insertByUrgency r l).filter (fun x => x.urgency == u) =
      l.filter (fun x => x.urgency == u) := by
  induction l with
  | nil => simp [insertByUrgency, hu]
  | cons y ys ih =>
    by_cases hc : priorityRank y.urgency ≤ priorityRank r.urgency
    · simp [insertByUrgency, hc, hu]
    · simp [insertByUrgency, hc, List.filter_cons, ih]

/-- The admin feed is sorted by urgency rank, descending. -/
theorem sortAdminFeed_sorted (reports : List Report) :
    (sortAdminFeed reports).Sorted
      (fun a b => priorityRank b.urgency ≤ priorityRank a.urgency) := by
  induction reports with
  | nil => simp [sortAdminFeed]
  | cons r rs ih =>
    have : sortAdminFeed (r :: rs) = insertByUrgency r (sortAdminFeed rs) := rfl
    rw [this]
    exact sorted_insertByUrgency r ih

/-- Stability of the admin feed, as filter preservation: for every urgency
value, the feed restricted to that urgency is the store restricted to that
urgency, in insertion order. -/
theorem sortAdminFeed_filter (u : String) (reports : List Report) :
    (sortAdminFeed reports).filter (fun x => x.urgency == u) =
      reports.filter (fun x => x.urgency == u) := by
  induction reports with
  | nil => rfl
  | cons r rs ih =>
    have hfold : sortAdminFeed (r :: rs) = insertByUrgency r (sortAdminFeed rs) := rfl
    by_cases hu : r.urgency = u
    · rw [hfold, filter_insertByUrgency_eq hu, ih, List.filter_cons,
        if_pos (by simpa using hu)]
    · rw [hfold, filter_insertByUrgency_ne hu, ih, List.filter_cons,
        if_neg (by simpa using hu)]

/-- **C5, confirmed.**  For every store content the admin feed is ordered
by urgency rank descending (Critical = 3, Moderate = 2, Low = 1) and the
sort is stable — for each urgency the feed lists exactly the store's
reports of that urgency in insertion order.  In particular, for reports
[R1(low), R2(high), R3(high), R4(med)] inserted in that order the feed is
[R2, R3, R4, R1]. -/
theorem adminFeed_sorted_stable :
    (∀ reports : List Report,
      (sortAdminFeed reports).Sorted
        (fun a b => priorityRank b.urgency ≤ priorityRank a.urgency) ∧
      ∀ u : String,
        (sortAdminFeed reports).filter (fun x => x.urgency == u) =
          reports.filter (fun x => x.urgency == u)) ∧
    (∀ r1 r2 r3 r4 : Report, r1.urgency = "Low" → r2.urgency = "Critical" →
      r3.urgency = "Critical" → r4.urgency = "Moderate" →
      sortAdminFeed [r1, r2, r3, r4] = [r2, r3, r4, r1]) := by
  constructor
  · intro reports
    exact ⟨sortAdminFeed_sorted reports, fun u => sortAdminFeed_filter u reports⟩
  · intro r1 r2 r3 r4 h1 h2 h3 h4
    have hC : priorityRank "Critical" = 3 := rfl
    have hM : priorityRank "Moderate" = 2 := rfl
    have hL : priorityRank "Low" = 1 := rfl
    norm_num [sortAdminFeed, insertByUrgency, h1, h2, h3, h4, hC, hM, hL]

/-- **C5, witness**: the concrete scenario [R1(low), R2(high), R3(high),
R4(med)] sorts to [R2, R3, R4, R1] — equal-urgency R2 and R3 keep their
insertion order. -/
theorem adminFeed_sorted_stable_witness :
    reportLow.urgency = "Low" ∧ reportHighA.urgency = "Critical" ∧
    reportHighB.urgency = "Critical" ∧ reportMed.urgency = "Moderate" ∧
    sortAdminFeed [reportLow, reportHighA, reportHighB, reportMed] =
      [reportHighA, reportHighB, reportMed, reportLow] := by
  refine ⟨rfl, rfl, rfl, rfl, ?_⟩
  exact adminFeed_sorted_stable.2 reportLow reportHighA reportHighB reportMed
    rfl rfl rfl rfl

/-- Once `clearInterval` has run, the callback never runs again: an
inactive listener produces no fires over any further trace and stays
inactive. -/
theorem runListener_inactive (reportId : Nat) (trace : List (List Report)) :
    runListener reportId false trace =
      (List.replicate trace.length false, false) := by
  induction trace with
  | nil => rfl
  | cons snap rest ih =>
    simp [runListener, ih, List.replicate]

/-- **C9, confirmed** (under the spec's contract reading: the report does
transition to `DISPATCHED` at some poll tick).  Over every trace of store
snapshots in which some polled snapshot shows the watched report
`DISPATCHED`, the listener's DOM callback fires exactly once over the
whole trace (count of fires is one — no further notifications), it fires
only at a tick at which the report is actually present with status
`DISPATCHED`, and afterwards the interval has been cleared (the final
active flag is `false`: no leaked recurring timer). -/
theorem listener_fires_exactly_once (reportId : Nat)
    (trace : List (List Report))
    (h : ∃ snap ∈ trace, pollFires snap reportId = true) :
    (runListener reportId true trace).1.count true = 1 ∧
    (∀ t : Nat, (runListener reportId true trace).1.getD t false = true →
      pollFires (trace.getD t []) reportId = true) ∧
    (runListener reportId true trace).2 = false := by
  induction trace with
  | nil =>
    obtain ⟨snap, hmem, _⟩ := h
    exact absurd hmem (by simp)
  | cons snap rest ih =>
    by_cases hp : pollFires snap reportId = true
    · have htail := runListener_inactive reportId rest
      refine ⟨?_, ?_, ?_⟩
      · simp [runListener, hp, htail, List.count_cons, List.count_replicate]
      · intro t ht
        match t with
        | 0 => simpa using hp
        | t + 1 =>
          exfalso
          simp [runListener, hp, htail] at ht
      · simp [runListener, hp, htail]
    · have hrest : ∃ s ∈ rest, pollFires s reportId = true := by
        obtain ⟨s, hmem, hs⟩ := h
        rcases List.mem_cons.mp hmem with hhead | hmem'
        · exact absurd (hhead ▸ hs) hp
        · exact ⟨s, hmem', hs⟩
      obtain ⟨ih1, ih2, ih3⟩ := ih hrest
      refine ⟨?_, ?_, ?_⟩
      · simp [runListener, hp, List.count_cons, ih1]
      · intro t ht
        match t with
        | 0 =>
          exfalso
          simp [runListener, hp] at ht
        | t + 1 =>
          simp only [runListener] at ht
          exact ih2 t (by simpa [hp] using ht)
      · simp [runListener, hp, ih3]

/-- **C9, witness**: over the concrete trace where the sample report is
`PENDING` at the first tick and `DISPATCHED` from the second tick on, the
callback fires exactly once and the interval ends cleared. -/
theorem listener_fires_exactly_once_witness :
    (∃ snap ∈ [[sampleReport], [sampleDispatched], [sampleDispatched]],
      pollFires snap 1 = true) ∧
    (runListener 1 true
      [[sampleReport], [sampleDispatched], [sampleDispatched]]).1.count true = 1 ∧
    (runListener 1 true
      [[sampleReport], [sampleDispatched], [sampleDispatched]]).2 = false := by
  have h : ∃ snap ∈ [[sampleReport], [sampleDispatched], [sampleDispatched]],
      pollFires snap 1 = true :=
    ⟨[sampleDispatched], List.mem_cons_of_mem _ (List.mem_cons_self _ _), rfl⟩
  obtain ⟨c1, _, c3⟩ := listener_fires_exactly_once 1
    [[sampleReport], [sampleDispatched], [sampleDispatched]] h
  exact ⟨h, c1, c3⟩

/-- Characterization of the `forEach` scan of `findNearestSite` from a
state where a best site `b` at distance `m` is already held: the scan
returns a site and its distance, the distance is a lower bound for the
remaining sites (and no worse than `m`), and either the held site survives
untouched or the winner comes from the remaining list having strictly
beaten `m` and every site before it there. -/
theorem nearest_foldl_char (lat lng : ℚ) (rest : List EvacuationSite) :
    ∀ (b : EvacuationSite) (m : ℝ), m = getDistance lat lng b.lat b.lng →
    ∃ s m', rest.foldl (nearestStep lat lng) (some (b, m)) = some (s, m') ∧
      m' = getDistance lat lng s.lat s.lng ∧
      m' ≤ m ∧
      (∀ y ∈ rest, m' ≤ getDistance lat lng y.lat y.lng) ∧
      ((s = b ∧ m' = m) ∨
        ∃ pre suf, rest = pre ++ s :: suf ∧ m' < m ∧
          ∀ y ∈ pre, m' < getDistance lat lng y.lat y.lng) := by
  induction rest with
  | nil =>
    intro b m hm
    exact ⟨b, m, rfl, hm, le_refl m, by simp, Or.inl ⟨rfl, rfl⟩⟩
  | cons x xs ih =>
    intro b m hm
    by_cases hd : getDistance lat lng x.lat x.lng < m
    · have hacc : nearestStep lat lng (some (b, m)) x =
          some (x, getDistance lat lng x.lat x.lng) := by
        simp [nearestStep, hd]
      obtain ⟨s, m', heq, hms, hle, hall, hcase⟩ := ih x _ rfl
      have heq' : (x :: xs).foldl (nearestStep lat lng) (some (b, m)) =
          some (s, m') := by
        rw [List.foldl_cons, hacc]
        exact heq
      refine ⟨s, m', heq', hms, ?_, ?_, ?_⟩
      · exact le_of_lt (lt_of_le_of_lt hle hd)
      · intro y hy
        rcases List.mem_cons.mp hy with hyx | hy'
        · rw [hyx]
          exact hle
        · exact hall y hy'
      · rcases hcase with ⟨hsx, hm'⟩ | ⟨pre, suf, hsplit, hlt, hpre⟩
        · refine Or.inr ⟨[], xs, by simp [hsx], ?_, by simp⟩
          rw [hm']
          exact hd
        · refine Or.inr ⟨x :: pre, suf, by rw [hsplit, List.cons_append], ?_, ?_⟩
          · exact lt_trans hlt hd
          · intro y hy
            rcases List.mem_cons.mp hy with hyx | hy'
            · rw [hyx]
              exact hlt
            · exact hpre y hy'
    · have hacc : nearestStep lat lng (some (b, m)) x = some (b, m) := by
        simp [nearestStep, hd]
      have hxm : m ≤ getDistance lat lng x.lat x.lng := not_lt.mp hd
      obtain ⟨s, m', heq, hms, hle, hall, hcase⟩ := ih b m hm
      have heq' : (x :: xs).foldl (nearestStep lat lng) (some (b, m)) =
          some (s, m') := by
        rw [List.foldl_cons, hacc]
        exact heq
      refine ⟨s, m', heq', hms, hle, ?_, ?_⟩
      · intro y hy
        rcases List.mem_cons.mp hy with hyx | hy'
        · rw [hyx]
          exact le_trans hle hxm
        · exact hall y hy'
      · rcases hcase with ⟨hsb, hm'⟩ | ⟨pre, suf, hsplit, hlt, hpre⟩
        · exact Or.inl ⟨hsb, hm'⟩
        · refine Or.inr ⟨x :: pre, suf, by rw [hsplit, List.cons_append], hlt, ?_⟩
          intro y hy
          rcases List.mem_cons.mp hy with hyx | hy'
          · rw [hyx]
            exact lt_of_lt_of_le hlt hxm
          · exact hpre y hy'

/-- **C6, confirmed.**  For every non-empty site list and every query
point, `findNearestSite` returns a site achieving the minimum Haversine
distance to the point, and it is the earliest such site in list order:
every site strictly before it in the list has strictly larger distance
(so on exact ties the earliest-listed site wins). -/
theorem findNearestSite_argmin (sites : List EvacuationSite) (lat lng : ℚ)
    (h : sites ≠ []) :
    ∃ s pre suf, sites = pre ++ s :: suf ∧
      findNearestSite sites lat lng = some s ∧
      (∀ y ∈ sites,
        getDistance lat lng s.lat s.lng ≤ getDistance lat lng y.lat y.lng) ∧
      (∀ y ∈ pre,
        getDistance lat lng s.lat s.lng < getDistance lat lng y.lat y.lng) := by
  match sites, h with
  | x :: xs, _ =>
    obtain ⟨s, m', heq, hms, hle, hall, hcase⟩ :=
      nearest_foldl_char lat lng xs x (getDistance lat lng x.lat x.lng) rfl
    have hfold : findNearestSite (x :: xs) lat lng = some s := by
      show ((x :: xs).foldl (nearestStep lat lng) none).map Prod.fst = some s
      have hnone : (x :: xs).foldl (nearestStep lat lng) none =
          xs.foldl (nearestStep lat lng)
            (some (x, getDistance lat lng x.lat x.lng)) := rfl
      rw [hnone, heq]
      rfl
    rcases hcase with ⟨hsx, hm'⟩ | ⟨pre, suf, hsplit, hlt, hpre⟩
    · refine ⟨s, [], xs, by simp [hsx], hfold, ?_, by simp⟩
      intro y hy
      rcases List.mem_cons.mp hy with hyx | hy'
      · rw [hyx, ← hms, hm']
      · rw [← hms]
        exact hall y hy'
    · refine ⟨s, x :: pre, suf, by rw [hsplit, List.cons_append], hfold, ?_, ?_⟩
      · intro y hy
        rcases List.mem_cons.mp hy with hyx | hy'
        · rw [hyx, ← hms]
          exact hle
        · rw [← hms]
          exact hall y hy'
      · intro y hy
        rcases List.mem_cons.mp hy with hyx | hy'
        · rw [hyx, ← hms]
          exact hlt
        · rw [← hms]
          exact hpre y hy'

/-- **C6, witness**: the reference three-site configuration is non-empty
and `findNearestSite` on it, queried at (14.6, 121.0), returns a
minimum-distance site that is earliest among the minimizers. -/
theorem findNearestSite_argmin_witness :
    evacuationSites ≠ [] ∧
    ∃ s pre suf, evacuationSites = pre ++ s :: suf ∧
      findNearestSite evacuationSites 14.6 121.0 = some s ∧
      (∀ y ∈ evacuationSites,
        getDistance 14.6 121.0 s.lat s.lng ≤ getDistance 14.6 121.0 y.lat y.lng) ∧
      (∀ y ∈ pre,
        getDistance 14.6 121.0 s.lat s.lng < getDistance 14.6 121.0 y.lat y.lng) :=
  ⟨by simp [evacuationSites],
    findNearestSite_argmin evacuationSites 14.6 121.0 (by simp [evacuationSites])⟩

/-- **C1, counterexample.**  The claim says a second identical
`setStatus(id, DISPATCHED)` call fails with `InvalidTransition` and a call
on an absent id fails with `NotFound`.  The source's `updateStatus` has no
error channel at all: starting from a store holding one `PENDING` report
with id 1, a first dispatch succeeds; a second identical call succeeds
again (it re-assigns the same status and fires the "Team dispatched"
alert, the `true` flag); a call on the absent id 99 silently does nothing
(`false`: no alert, no error); and even the reverse transition
`DISPATCHED → PENDING` is accepted. -/
theorem updateStatus_never_fails_cex :
    (updateStatus [sampleReport] 1 "DISPATCHED") = ([sampleDispatched], true) ∧
    (updateStatus [sampleDispatched] 1 "DISPATCHED") = ([sampleDispatched], true) ∧
    (updateStatus [sampleDispatched] 99 "DISPATCHED") = ([sampleDispatched], false) ∧
    (updateStatus [sampleDispatched] 1 "PENDING") = ([sampleReport], true) := by
  refine ⟨?_, ?_, ?_, ?_⟩ <;> rfl

/-- **C1, amended.**  `updateStatus` performs no transition validation and
raises no error: if no report in the store has the given id it returns the
store unchanged with the alert flag `false`; if some report has the id, the
first such report gets `newStatus` assigned unconditionally (whatever its
current status) and the alert fires (`true`). -/
theorem updateStatus_unconditional (reports : List Report) (id : Nat)
    (s : String) :
    ((∀ r ∈ reports, r.id ≠ id) → updateStatus reports id s = (reports, false)) ∧
    (∀ k, (hk : k < reports.length) →
      (∀ j, (hj : j < reports.length) → j < k → (reports.get ⟨j, hj⟩).id ≠ id) →
      (reports.get ⟨k, hk⟩).id = id →
      updateStatus reports id s =
        (reports.set k { reports.get ⟨k, hk⟩ with status := s }, true)) := by
  constructor
  · intro h
    induction reports with
    | nil => rfl
    | cons r rs ih =>
      have hr : r.id ≠ id := h r (by simp)
      have hrs := ih (fun x hx => h x (by simp [hx]))
      simp only [updateStatus, if_neg hr, hrs]
  · intro k
    induction reports generalizing k with
    | nil => intro hk; exact absurd hk (by simp)
    | cons r rs ih =>
      intro hk hbefore hid
      match k with
      | 0 =>
        simp only [List.get] at hid
        simp [updateStatus, if_pos hid]
      | k + 1 =>
        have hr : r.id ≠ id := by
          have := hbefore 0 (by simp) (Nat.succ_pos k)
          simpa using this
        have hrec := ih k (by simpa using hk)
          (fun j hj hjk => by
            have := hbefore (j + 1) (by simpa using hj)
              (Nat.succ_lt_succ hjk)
            simpa using this)
          (by simpa using hid)
        simp only [updateStatus, if_neg hr, hrec, List.set, List.get]

/-- **C1, witness** for the amended theorem: on the concrete dispatched
store, an absent id (99) is a silent no-op and the present id 1 (position
0) gets the status assigned. -/
theorem updateStatus_unconditional_witness :
    updateStatus [sampleDispatched] 99 "DISPATCHED" = ([sampleDispatched], false) ∧
    updateStatus [sampleDispatched] 1 "PENDING" = ([sampleReport], true) := by
  constructor
  · exact (updateStatus_unconditional [sampleDispatched] 99 "DISPATCHED").1
      (by decide)
  · have h := (updateStatus_unconditional [sampleDispatched] 1 "PENDING").2
      0 (by decide) (by intro j hj hj0; exact absurd hj0 (by simp)) (by decide)
    simpa using h

/-- **C4, counterexample.**  The claim says an automatic GPS success
callback arriving after `confirmManualLocation` leaves the manual values
in place.  In the source the callback assigns unconditionally: after
confirming the manual location (14.70, 121.10) and then receiving a GPS
fix (15, 121) with accuracy 25, the stored state holds the GPS values,
not the manual ones. -/
theorem gps_overwrites_manual_cex :
    (geolocationSuccess (confirmManualLocation initialState 14.70 121.10)
        15 121 25).currentUserLat = some 15 ∧
    (geolocationSuccess (confirmManualLocation initialState 14.70 121.10)
        15 121 25).currentUserLng = some 121 ∧
    (geolocationSuccess (confirmManualLocation initialState 14.70 121.10)
        15 121 25).currentUserAccuracy = some 25 := by
  refine ⟨rfl, rfl, rfl⟩

/-- **C4, amended.**  The stored location/accuracy pair is last-write-wins:
a geolocation success callback that runs after `confirmManualLocation`
overwrites all three stored fields with the GPS fix, exactly as if the
manual confirmation had never happened. -/
theorem gps_after_manual_last_write_wins (st : ScriptState)
    (mlat mlng glat glng gacc : ℚ) :
    geolocationSuccess (confirmManualLocation st mlat mlng) glat glng gacc =
      geolocationSuccess st glat glng gacc := by
  rfl

/-- **C7, counterexample.**  The claim says `nearestSite` on an empty site
list fails with an `EmptySiteList` error and never returns null/undefined.
The source initialises `nearestSite = null` and the `forEach` over an
empty list never replaces it, so the function returns exactly the null
result the claim rules out; there is no `throw` anywhere in the source. -/
theorem findNearestSite_empty_cex :
    findNearestSite [] 14.6 121.0 = none := by
  rfl

/-- **C7, amended.**  `findNearestSite` applied to an empty site list
returns the JS `null` (here `none`) for every query point; no error is
raised. -/
theorem findNearestSite_empty_returns_null (lat lng : ℚ) :
    findNearestSite [] lat lng = none := by
  rfl

/-- **C8, confirmed.**  With no severity selected (the global is the empty
string), `submitReport` aborts before touching any state: the result is
the `MissingSeverity` alert, the store and its size are unchanged, and
every piece of prior form input — location, accuracy, verification mode,
sensor flag — is left intact. -/
theorem submit_missing_severity_no_mutation (st : ScriptState) (now : Nat)
    (ts people : String) (hasPhoto : Bool)
    (h : st.selectedSeverityLevel = "") :
    submitReport st now ts people hasPhoto = (st, SubmitResult.missingSeverity) ∧
    (submitReport st now ts people hasPhoto).1.reports.length = st.reports.length ∧
    (submitReport st now ts people hasPhoto).1.currentUserLat = st.currentUserLat ∧
    (submitReport st now ts people hasPhoto).1.currentUserLng = st.currentUserLng ∧
    (submitReport st now ts people hasPhoto).1.currentUserAccuracy =
      st.currentUserAccuracy ∧
    (submitReport st now ts people hasPhoto).1.currentVerificationMode =
      st.currentVerificationMode ∧
    (submitReport st now ts people hasPhoto).1.sensorVerified = st.sensorVerified := by
  simp [submitReport, h]

/-- **C8, witness**: the initial state has no severity selected, and a
submission from it is rejected with the store untouched. -/
theorem submit_missing_severity_witness :
    initialState.selectedSeverityLevel = "" ∧
    submitReport initialState 7 "t" "0" false =
      (initialState, SubmitResult.missingSeverity) :=
  ⟨rfl, (submit_missing_severity_no_mutation initialState 7 "t" "0" false rfl).1⟩

/-- **C2, code bug.**  `confirmManualLocation` stores `accuracy = 0` with
the source's own comment "0 indicates manual selection", but `submitReport`
builds the report with `appState.currentUserAccuracy || 15`, and `0` is
falsy in JS, so the sentinel is silently replaced by the GPS-fallback
default 15.  Concretely: after confirming the manual location
(14.70, 121.10) and selecting severity "high", the submission succeeds and
the report carries the manual latitude/longitude but accuracy 15, not 0 —
the claim (and the sentinel's documented meaning) says 0. -/
theorem manual_sentinel_lost_on_submit :
    (submitReport
        (confirmManualLocation (selectSeverity initialState "high") 14.70 121.10)
        1000 "ts" "3" false).2 =
      SubmitResult.submitted
        (mkReport
          (confirmManualLocation (selectSeverity initialState "high") 14.70 121.10)
          1000 "ts" "3" false) ∧
    (mkReport
        (confirmManualLocation (selectSeverity initialState "high") 14.70 121.10)
        1000 "ts" "3" false).lat = 14.70 ∧
    (mkReport
        (confirmManualLocation (selectSeverity initialState "high") 14.70 121.10)
        1000 "ts" "3" false).lng = 121.10 ∧
    (mkReport
        (confirmManualLocation (selectSeverity initialState "high") 14.70 121.10)
        1000 "ts" "3" false).accuracy = 15 := by
  refine ⟨rfl, ?_, ?_, ?_⟩ <;>
    norm_num [mkReport, jsOrElse, confirmManualLocation, selectSeverity,
      initialState]

/-- **C3, counterexample.**  The claim says that whenever a location was
resolved — any latitude, longitude and accuracy values — the resolved
values are used in the report.  The `||` fallback is applied per field and
triggers on the falsy value `0`: with an automatic GPS fix resolved at
latitude 0, longitude 121.10, accuracy 8, the submission succeeds but the
report carries the default latitude 14.5995 together with the resolved
longitude and accuracy — neither the resolved triple nor the full default. -/
theorem resolved_zero_latitude_cex :
    (geolocationSuccess (selectSeverity initialState "low") 0 121.10 8).currentUserLat
        = some 0 ∧
    (submitReport (geolocationSuccess (selectSeverity initialState "low") 0 121.10 8)
        2000 "ts" "1" false).2 =
      SubmitResult.submitted
        (mkReport (geolocationSuccess (selectSeverity initialState "low") 0 121.10 8)
          2000 "ts" "1" false) ∧
    (mkReport (geolocationSuccess (selectSeverity initialState "low") 0 121.10 8)
        2000 "ts" "1" false).lat = 14.5995 ∧
    (mkReport (geolocationSuccess (selectSeverity initialState "low") 0 121.10 8)
        2000 "ts" "1" false).lng = 121.10 ∧
    (mkReport (geolocationSuccess (selectSeverity initialState "low") 0 121.10 8)
        2000 "ts" "1" false).accuracy = 8 := by
  refine ⟨rfl, rfl, ?_, ?_, ?_⟩ <;>
    norm_num [mkReport, jsOrElse, geolocationSuccess, selectSeverity,
      initialState]

/-- **C3, amended.**  A successful `submitReport` builds the report from
the stored location with a per-field JS-falsy fallback: if no location
field was ever resolved (all three are `null`) the report carries the
default coordinate (14.5995, 120.9842) and accuracy 15; whenever a
location was resolved with nonzero latitude, longitude and accuracy, those
resolved values are used (a resolved field equal to 0 falls back to that
field's default instead, `0` being falsy). -/
theorem submit_location_fallback (st : ScriptState) (now : Nat)
    (ts people : String) (hasPhoto : Bool)
    (hsev : st.selectedSeverityLevel ≠ "") :
    (submitReport st now ts people hasPhoto).2 =
      SubmitResult.submitted (mkReport st now ts people hasPhoto) ∧
    (st.currentUserLat = none ∧ st.currentUserLng = none ∧
        st.currentUserAccuracy = none →
      (mkReport st now ts people hasPhoto).lat = 14.5995 ∧
      (mkReport st now ts people hasPhoto).lng = 120.9842 ∧
      (mkReport st now ts people hasPhoto).accuracy = 15) ∧
    (∀ la ln ac : ℚ, st.currentUserLat = some la → st.currentUserLng = some ln →
      st.currentUserAccuracy = some ac → la ≠ 0 → ln ≠ 0 → ac ≠ 0 →
      (mkReport st now ts people hasPhoto).lat = la ∧
      (mkReport st now ts people hasPhoto).lng = ln ∧
      (mkReport st now ts people hasPhoto).accuracy = ac) := by
  refine ⟨by simp [submitReport, hsev], ?_, ?_⟩
  · rintro ⟨h1, h2, h3⟩
    simp [mkReport, jsOrElse, h1, h2, h3]
  · intro la ln ac h1 h2 h3 hla hln hac
    simp [mkReport, jsOrElse, h1, h2, h3, hla, hln, hac]

/-- **C3, witness** for the amended theorem: with a resolved nonzero GPS fix
(14.6, 121.0, accuracy 10) and severity "high" selected, the submission
succeeds and the report carries exactly the resolved values. -/
theorem submit_location_fallback_witness :
    ((geolocationSuccess (selectSeverity initialState "high") 14.6 121.0 10).selectedSeverityLevel
        ≠ "") ∧
    (mkReport (geolocationSuccess (selectSeverity initialState "high") 14.6 121.0 10)
        5 "t" "2" true).lat = 14.6 ∧
    (mkReport (geolocationSuccess (selectSeverity initialState "high") 14.6 121.0 10)
        5 "t" "2" true).lng = 121.0 ∧
    (mkReport (geolocationSuccess (selectSeverity initialState "high") 14.6 121.0 10)
        5 "t" "2" true).accuracy = 10 := by
  refine ⟨by decide, ?_⟩
  exact (submit_location_fallback
      (geolocationSuccess (selectSeverity initialState "high") 14.6 121.0 10)
      5 "t" "2" true (by decide)).2.2 14.6 121.0 10 rfl rfl rfl
    (by norm_num) (by norm_num) (by norm_num)

/-- **C10, confirmed.**  A successful submission resets none of the
module-level form state: the severity selection, verification mode, sensor
flag and stored location/accuracy all survive, the store merely grows by
the one new report, and a second submission performed without re-running
the sensor check, re-selecting severity or re-acquiring location succeeds
and builds a report inheriting severity, verification type, sensor flag
and location fields from the first — in particular `sensorVerified`
carries over verbatim. -/
theorem submit_preserves_form_state (st : ScriptState) (n1 n2 : Nat)
    (ts1 ts2 p1 p2 : String) (hp1 hp2 : Bool)
    (h : st.selectedSeverityLevel ≠ "") :
    (submitReport st n1 ts1 p1 hp1).2 =
      SubmitResult.submitted (mkReport st n1 ts1 p1 hp1) ∧
    (submitReport st n1 ts1 p1 hp1).1.selectedSeverityLevel =
      st.selectedSeverityLevel ∧
    (submitReport st n1 ts1 p1 hp1).1.currentVerificationMode =
      st.currentVerificationMode ∧
    (submitReport st n1 ts1 p1 hp1).1.sensorVerified = st.sensorVerified ∧
    (submitReport st n1 ts1 p1 hp1).1.currentUserLat = st.currentUserLat ∧
    (submitReport st n1 ts1 p1 hp1).1.currentUserLng = st.currentUserLng ∧
    (submitReport st n1 ts1 p1 hp1).1.currentUserAccuracy =
      st.currentUserAccuracy ∧
    (submitReport st n1 ts1 p1 hp1).1.reports =
      st.reports ++ [mkReport st n1 ts1 p1 hp1] ∧
    (submitReport (submitReport st n1 ts1 p1 hp1).1 n2 ts2 p2 hp2).2 =
      SubmitResult.submitted
        (mkReport (submitReport st n1 ts1 p1 hp1).1 n2 ts2 p2 hp2) ∧
    (mkReport (submitReport st n1 ts1 p1 hp1).1 n2 ts2 p2 hp2).severity =
      (mkReport st n1 ts1 p1 hp1).severity ∧
    (mkReport (submitReport st n1 ts1 p1 hp1).1 n2 ts2 p2 hp2).verificationType =
      (mkReport st n1 ts1 p1 hp1).verificationType ∧
    (mkReport (submitReport st n1 ts1 p1 hp1).1 n2 ts2 p2 hp2).sensorVerified =
      st.sensorVerified ∧
    (mkReport (submitReport st n1 ts1 p1 hp1).1 n2 ts2 p2 hp2).lat =
      (mkReport st n1 ts1 p1 hp1).lat ∧
    (mkReport (submitReport st n1 ts1 p1 hp1).1 n2 ts2 p2 hp2).lng =
      (mkReport st n1 ts1 p1 hp1).lng ∧
    (mkReport (submitReport st n1 ts1 p1 hp1).1 n2 ts2 p2 hp2).accuracy =
      (mkReport st n1 ts1 p1 hp1).accuracy := by
  simp [submitReport, mkReport, h]

/-- **C10, witness**: after a sensor-verified "med" submission, a second
submission without re-running the sensor check still succeeds and its
report has `sensorVerified = true`, inherited from the first. -/
theorem submit_preserves_form_state_witness :
    ((sensorCheckComplete (selectSeverity (setVerificationMode initialState "sensor")
        "med")).selectedSeverityLevel ≠ "") ∧
    (mkReport (submitReport
        (sensorCheckComplete (selectSeverity (setVerificationMode initialState "sensor")
          "med")) 1 "a" "2" false).1 2 "b" "3" false).sensorVerified = true := by
  refine ⟨by decide, ?_⟩
  exact (submit_preserves_form_state
      (sensorCheckComplete (selectSeverity (setVerificationMode initialState "sensor")
        "med")) 1 2 "a" "b" "2" "3" false false
      (by decide)).2.2.2.2.2.2.2.2.2.2.2.1
